import Mathlib

/-!
Shallow embedding of the IT benchmarking analysis engine
(`src/analysis/engine.py` and `src/data/benchmarks.py`).

Python dicts are modelled as functions `String → Option _`; numeric values
are modelled as rationals (`ℚ`); fallible lookups return `Option`.
-/

namespace ITBench

/-- A shared metric definition (one entry of `METRIC_DEFINITIONS`). -/
structure MetricDefinition where
  name : String
  category : String
  unit : String
  format : String
  direction : String
  description : String
deriving DecidableEq, Inhabited

/-- An industry-specific benchmark band (one entry of `INDUSTRY_BENCHMARKS[industry]`). -/
structure BandData where
  top_quartile : ℚ
  median : ℚ
  bottom_quartile : ℚ
  insight_high : String
  insight_low : String
  insight_aligned : String
  source : String
deriving DecidableEq, Inhabited

/-- The merged definition+band record produced by `get_benchmarks`
(`{**definition, **industry_data[metric_id]}`). -/
structure Bench where
  name : String
  category : String
  unit : String
  format : String
  direction : String
  description : String
  top_quartile : ℚ
  median : ℚ
  bottom_quartile : ℚ
  insight_high : String
  insight_low : String
  insight_aligned : String
  source : String
deriving DecidableEq, Inhabited

/-- `METRIC_DEFINITIONS` from `src/data/benchmarks.py`, as a lookup function. -/
def METRIC_DEFINITIONS : String → Option MetricDefinition := fun metric_id =>
  if metric_id = "it_spend_pct_revenue" then some
    { name := "IT Spend as % of Revenue", category := "Spend", unit := "%",
      format := ".1f", direction := "lower_is_better",
      description := "Total IT budget divided by annual revenue." }
  else if metric_id = "it_spend_per_employee" then some
    { name := "IT Spend per Employee", category := "Spend", unit := "$",
      format := ",.0f", direction := "lower_is_better",
      description := "Total IT budget divided by total firm headcount." }
  else if metric_id = "it_spend_pct_opex" then some
    { name := "IT Spend as % of OpEx", category := "Spend", unit := "%",
      format := ".1f", direction := "lower_is_better",
      description := "Total IT budget as a share of total operating expenses." }
  else if metric_id = "it_budget_yoy_growth" then some
    { name := "IT Budget Year-over-Year Growth", category := "Spend", unit := "%",
      format := ".1f", direction := "higher_is_better",
      description := "Percentage increase in IT budget from prior year." }
  else if metric_id = "it_staff_pct_employees" then some
    { name := "IT Staff as % of Total Employees", category := "Staffing", unit := "%",
      format := ".1f", direction := "lower_is_better",
      description := "IT FTEs as a share of total firm headcount." }
  else if metric_id = "it_staffing_ratio" then some
    { name := "IT Staffing Ratio (Users per IT FTE)", category := "Staffing", unit := "ratio",
      format := ".0f", direction := "lower_is_better",
      description := "Number of total employees supported per IT FTE. Lower means more IT support per person." }
  else if metric_id = "run_budget_pct" then some
    { name := "Run (Keep-the-Lights-On) Budget %", category := "Budget Allocation", unit := "%",
      format := ".0f", direction := "lower_is_better",
      description := "Percentage of IT budget spent on maintaining existing operations." }
  else if metric_id = "grow_budget_pct" then some
    { name := "Grow (Enhance) Budget %", category := "Budget Allocation", unit := "%",
      format := ".0f", direction := "higher_is_better",
      description := "Percentage of IT budget spent on enhancing existing capabilities." }
  else if metric_id = "transform_budget_pct" then some
    { name := "Transform (Innovation) Budget %", category := "Budget Allocation", unit := "%",
      format := ".0f", direction := "higher_is_better",
      description := "Percentage of IT budget spent on transformative, new capability initiatives." }
  else if metric_id = "cloud_pct_budget" then some
    { name := "Cloud Spend as % of IT Budget", category := "Technology Mix", unit := "%",
      format := ".0f", direction := "higher_is_better",
      description := "Cloud expenditure (IaaS, PaaS, SaaS) as a share of total IT budget." }
  else if metric_id = "cybersecurity_pct_budget" then some
    { name := "Cybersecurity Spend as % of IT Budget", category := "Technology Mix", unit := "%",
      format := ".1f", direction := "higher_is_better",
      description := "Cybersecurity and information security spend as a share of IT budget." }
  else if metric_id = "it_labor_pct_budget" then some
    { name := "IT Labor Cost as % of IT Budget", category := "Cost Structure", unit := "%",
      format := ".0f", direction := "lower_is_better",
      description := "Internal IT labor costs (salaries, benefits) as a share of IT budget." }
  else if metric_id = "outsourcing_pct_budget" then some
    { name := "Outsourcing Spend as % of IT Budget", category := "Cost Structure", unit := "%",
      format := ".0f", direction := "higher_is_better",
      description := "Outsourced IT services spend as a share of total IT budget." }
  else if metric_id = "app_pct_budget" then some
    { name := "Application Spend % (vs Infrastructure)", category := "Cost Structure", unit := "%",
      format := ".0f", direction := "higher_is_better",
      description := "Application spend as a share of combined application + infrastructure spend." }
  else if metric_id = "system_availability" then some
    { name := "Core System Availability", category := "Operations", unit := "%",
      format := ".2f", direction := "higher_is_better",
      description := "Average uptime of mission-critical systems." }
  else if metric_id = "it_attrition_rate" then some
    { name := "IT Employee Attrition Rate", category := "Operations", unit := "%",
      format := ".0f", direction := "lower_is_better",
      description := "Annual voluntary turnover rate for IT staff." }
  else if metric_id = "helpdesk_cost_per_ticket" then some
    { name := "Help Desk Cost per Ticket", category := "Operations", unit := "$",
      format := ",.0f", direction := "lower_is_better",
      description := "Average fully-loaded cost to resolve a Tier 1 help desk ticket." }
  else none

/-- One band record of the `"financial_services"` table in `src/data/benchmarks.py`
(likewise each `fs_*_band` below). -/
def fs_it_spend_pct_revenue_band : BandData :=
  { top_quartile := 57/10, median := 79/10, bottom_quartile := 57/5,
    insight_high := "You are spending significantly more on IT relative to revenue than peers. This may indicate inefficiency, technical debt, or a strategic heavy-investment phase.",
    insight_low := "Your IT spend is lean relative to revenue. Verify this isn\x27t creating underinvestment risk in security, modernization, or talent.",
    insight_aligned := "Your IT spend as a percentage of revenue is well-aligned with Financial Services peers.",
    source := "Gartner / Avasant Computer Economics" }

def fs_it_spend_per_employee_band : BandData :=
  { top_quartile := 18000, median := 35000, bottom_quartile := 55000,
    insight_high := "Your per-employee IT cost is above the median. Check for over-provisioning, license waste, or high support costs.",
    insight_low := "You are spending less per employee than peers. Ensure end-user experience and productivity tooling are not suffering.",
    insight_aligned := "Your per-employee IT spend is in line with Financial Services norms.",
    source := "Gartner / SouthState" }

def fs_it_spend_pct_opex_band : BandData :=
  { top_quartile := 17/2, median := 56/5, bottom_quartile := 15,
    insight_high := "IT is consuming a large share of operating expenses. Evaluate whether this reflects strategic investment or cost inefficiency.",
    insight_low := "IT\x27s share of OpEx is low. This could indicate efficiency or potential underinvestment.",
    insight_aligned := "Your IT share of operating expenses is typical for the industry.",
    source := "Gartner / SouthState" }

def fs_it_budget_yoy_growth_band : BandData :=
  { top_quartile := 8, median := 47/10, bottom_quartile := 2,
    insight_high := "Aggressive budget growth signals strong organizational commitment to technology.",
    insight_low := "Flat or declining IT budgets may constrain your ability to modernize and compete.",
    insight_aligned := "Your budget growth rate is typical for Financial Services firms.",
    source := "Gartner / SouthState" }

def fs_it_staff_pct_employees_band : BandData :=
  { top_quartile := 8, median := 123/10, bottom_quartile := 17,
    insight_high := "Your IT headcount ratio is above the median. Evaluate whether automation, outsourcing, or process improvement could reduce this.",
    insight_low := "Your IT staffing is lean. Ensure critical capabilities (security, architecture) are not understaffed.",
    insight_aligned := "Your IT staffing ratio is typical for Financial Services.",
    source := "Gartner / GoWorkWize" }

def fs_it_staffing_ratio_band : BandData :=
  { top_quartile := 50, median := 70, bottom_quartile := 100,
    insight_high := "Each IT person supports many users. You may be understaffed relative to peers, risking service quality.",
    insight_low := "You have rich IT support coverage per employee. Verify this level of investment is delivering proportional value.",
    insight_aligned := "Your IT support ratio is well-aligned with industry peers.",
    source := "GoWorkWize / TalentMSH" }

def fs_run_budget_pct_band : BandData :=
  { top_quartile := 55, median := 67, bottom_quartile := 78,
    insight_high := "A high Run budget leaves little room for innovation. Consider modernization to free up capacity.",
    insight_low := "You are keeping Run costs low, freeing budget for growth and transformation. Strong position.",
    insight_aligned := "Your Run allocation is typical — most firms spend about two-thirds maintaining existing systems.",
    source := "Gartner / SouthState" }

def fs_grow_budget_pct_band : BandData :=
  { top_quartile := 27, median := 22, bottom_quartile := 15,
    insight_high := "Strong Grow investment — you are actively enhancing capabilities ahead of peers.",
    insight_low := "Your Grow allocation is below peers. Existing capabilities may fall behind competitive expectations.",
    insight_aligned := "Your Grow allocation is in line with industry norms.",
    source := "Gartner / SouthState" }

def fs_transform_budget_pct_band : BandData :=
  { top_quartile := 18, median := 11, bottom_quartile := 7,
    insight_high := "You are investing heavily in transformation — a strong signal of digital maturity.",
    insight_low := "Low Transform spending may indicate limited innovation pipeline or excessive technical debt consuming resources.",
    insight_aligned := "Your Transform investment is in the typical range for Financial Services.",
    source := "Gartner / SouthState" }

def fs_cloud_pct_budget_band : BandData :=
  { top_quartile := 40, median := 32, bottom_quartile := 20,
    insight_high := "You are cloud-forward relative to peers. Ensure you have strong FinOps practices to manage cloud cost growth.",
    insight_low := "Your cloud adoption is below the median. Legacy infrastructure may be dragging on agility and cost efficiency.",
    insight_aligned := "Your cloud investment is on par with Financial Services peers.",
    source := "Gartner / DataStackHub" }

def fs_cybersecurity_pct_budget_band : BandData :=
  { top_quartile := 14, median := 48/5, bottom_quartile := 6,
    insight_high := "Strong security investment. Ensure spend is outcome-driven, not just compliance-driven.",
    insight_low := "Your security spend is below the median — a risk flag in a highly regulated, highly targeted industry.",
    insight_aligned := "Your cybersecurity investment is in the typical range for Financial Services.",
    source := "IANS Research / Deloitte" }

def fs_it_labor_pct_budget_band : BandData :=
  { top_quartile := 30, median := 38, bottom_quartile := 48,
    insight_high := "Labor is consuming a large share of budget. Consider automation, offshore leverage, or managed services.",
    insight_low := "Lean labor costs — verify this isn\x27t creating key-person risk or quality issues.",
    insight_aligned := "Your IT labor cost ratio is typical for the industry.",
    source := "Gartner / SouthState" }

def fs_outsourcing_pct_budget_band : BandData :=
  { top_quartile := 30, median := 18, bottom_quartile := 10,
    insight_high := "High outsourcing leverage can improve cost efficiency but watch for vendor dependency and knowledge loss.",
    insight_low := "Low outsourcing may mean higher internal costs but better control. Evaluate selective outsourcing for commodity functions.",
    insight_aligned := "Your outsourcing level is typical for Financial Services.",
    source := "Gartner / ConnectBit" }

def fs_app_pct_budget_band : BandData :=
  { top_quartile := 65, median := 60, bottom_quartile := 50,
    insight_high := "Strong application investment relative to infrastructure — consistent with modern, cloud-native strategies.",
    insight_low := "Infrastructure-heavy spending may indicate legacy on-prem footprint. Consider cloud migration to shift spend toward applications.",
    insight_aligned := "Your application vs. infrastructure balance is in line with industry trends.",
    source := "McKinsey" }

def fs_system_availability_band : BandData :=
  { top_quartile := 9999/100, median := 1999/20, bottom_quartile := 999/10,
    insight_high := "Excellent availability — you are at or near four-nines, which is the gold standard.",
    insight_low := "Your availability is below the median. In Financial Services, even small downtime gaps translate to material revenue and reputational risk.",
    insight_aligned := "Your availability is on par with industry norms.",
    source := "Industry standard SLA benchmarks" }

def fs_it_attrition_rate_band : BandData :=
  { top_quartile := 10, median := 15, bottom_quartile := 22,
    insight_high := "High attrition is costly and risks institutional knowledge loss. Review compensation, culture, and career paths.",
    insight_low := "Strong retention — a competitive advantage in the talent-scarce IT market.",
    insight_aligned := "Your IT attrition is in the typical range for Financial Services.",
    source := "Payscale / BambooHR" }

def fs_helpdesk_cost_per_ticket_band : BandData :=
  { top_quartile := 12, median := 22, bottom_quartile := 40,
    insight_high := "Your cost per ticket is above the median. Look at self-service adoption, knowledge base quality, and first-call resolution rates.",
    insight_low := "Efficient help desk operations. Verify quality metrics (CSAT, FCR) are also strong.",
    insight_aligned := "Your help desk cost is in the typical range for the industry.",
    source := "MetricNet / HDI" }

/-- The `"financial_services"` entry of `INDUSTRY_BENCHMARKS` from `src/data/benchmarks.py`. -/
def financial_services_bands : String → Option BandData := fun metric_id =>
  if metric_id = "it_spend_pct_revenue" then some fs_it_spend_pct_revenue_band
  else if metric_id = "it_spend_per_employee" then some fs_it_spend_per_employee_band
  else if metric_id = "it_spend_pct_opex" then some fs_it_spend_pct_opex_band
  else if metric_id = "it_budget_yoy_growth" then some fs_it_budget_yoy_growth_band
  else if metric_id = "it_staff_pct_employees" then some fs_it_staff_pct_employees_band
  else if metric_id = "it_staffing_ratio" then some fs_it_staffing_ratio_band
  else if metric_id = "run_budget_pct" then some fs_run_budget_pct_band
  else if metric_id = "grow_budget_pct" then some fs_grow_budget_pct_band
  else if metric_id = "transform_budget_pct" then some fs_transform_budget_pct_band
  else if metric_id = "cloud_pct_budget" then some fs_cloud_pct_budget_band
  else if metric_id = "cybersecurity_pct_budget" then some fs_cybersecurity_pct_budget_band
  else if metric_id = "it_labor_pct_budget" then some fs_it_labor_pct_budget_band
  else if metric_id = "outsourcing_pct_budget" then some fs_outsourcing_pct_budget_band
  else if metric_id = "app_pct_budget" then some fs_app_pct_budget_band
  else if metric_id = "system_availability" then some fs_system_availability_band
  else if metric_id = "it_attrition_rate" then some fs_it_attrition_rate_band
  else if metric_id = "helpdesk_cost_per_ticket" then some fs_helpdesk_cost_per_ticket_band
  else none

/-- One band record of the `"healthcare"` table in `src/data/benchmarks.py`
(likewise each `hc_*_band` below). -/
def hc_it_spend_pct_revenue_band : BandData :=
  { top_quartile := 3, median := 19/5, bottom_quartile := 5,
    insight_high := "You are spending significantly more on IT relative to revenue than healthcare peers. This may reflect EHR modernization, regulatory burden, or inefficiency.",
    insight_low := "Your IT spend is lean relative to revenue. In healthcare, underinvestment can create clinical safety and compliance risk.",
    insight_aligned := "Your IT spend as a percentage of revenue is well-aligned with healthcare industry peers.",
    source := "Avasant / Computer Economics / PEAKE" }

def hc_it_spend_per_employee_band : BandData :=
  { top_quartile := 6000, median := 8500, bottom_quartile := 12000,
    insight_high := "Your per-employee IT cost is above the median. Healthcare has large clinical workforces — check for license waste or over-provisioning.",
    insight_low := "You are spending less per employee than peers. Ensure clinician productivity tools and EHR support are not suffering.",
    insight_aligned := "Your per-employee IT spend is in line with healthcare norms.",
    source := "Avasant / Computer Economics" }

def hc_it_spend_pct_opex_band : BandData :=
  { top_quartile := 2, median := 14/5, bottom_quartile := 7/2,
    insight_high := "IT is consuming an above-average share of operating expenses. Healthcare OpEx is dominated by clinical labor — evaluate IT cost drivers.",
    insight_low := "IT\x27s share of OpEx is low. Given regulatory and cybersecurity demands, verify this isn\x27t creating risk.",
    insight_aligned := "Your IT share of operating expenses is typical for healthcare organizations.",
    source := "Definitive Healthcare / Avasant" }

def hc_it_budget_yoy_growth_band : BandData :=
  { top_quartile := 10, median := 6, bottom_quartile := 3,
    insight_high := "Aggressive budget growth signals strong organizational commitment to digital health and modernization.",
    insight_low := "Flat IT budgets in healthcare are risky given rising cybersecurity threats and regulatory demands.",
    insight_aligned := "Your budget growth rate is typical for healthcare organizations.",
    source := "Gartner HCLS / Guidehouse" }

def hc_it_staff_pct_employees_band : BandData :=
  { top_quartile := 1, median := 9/5, bottom_quartile := 5/2,
    insight_high := "Your IT headcount ratio is above the median. Healthcare has large non-IT workforces — evaluate whether outsourcing or automation could help.",
    insight_low := "Your IT staffing is lean even for healthcare. Ensure EHR support, security, and clinical informatics are adequately covered.",
    insight_aligned := "Your IT staffing ratio is typical for healthcare organizations.",
    source := "Avasant / HIMSS" }

def hc_it_staffing_ratio_band : BandData :=
  { top_quartile := 50, median := 60, bottom_quartile := 100,
    insight_high := "Each IT person supports many users. In healthcare, inadequate IT support directly impacts clinician productivity and patient safety.",
    insight_low := "You have strong IT support coverage. Verify this is translating into better clinician experience and system reliability.",
    insight_aligned := "Your IT support ratio is well-aligned with healthcare peers.",
    source := "HIMSS / GoWorkWize" }

def hc_run_budget_pct_band : BandData :=
  { top_quartile := 55, median := 63, bottom_quartile := 72,
    insight_high := "A high Run budget in healthcare often reflects legacy EHR maintenance and regulatory compliance burden. Evaluate modernization to free capacity.",
    insight_low := "You are keeping Run costs low — strong position to invest in growth and transformation.",
    insight_aligned := "Your Run allocation is typical for healthcare — regulatory and EHR maintenance consume significant budget.",
    source := "Gartner RGT Framework" }

def hc_grow_budget_pct_band : BandData :=
  { top_quartile := 25, median := 20, bottom_quartile := 15,
    insight_high := "Strong Grow investment — you are actively enhancing clinical and operational capabilities ahead of peers.",
    insight_low := "Your Grow allocation is below peers. Clinical systems and patient experience platforms may fall behind.",
    insight_aligned := "Your Grow allocation is in line with healthcare norms.",
    source := "Gartner RGT Framework" }

def hc_transform_budget_pct_band : BandData :=
  { top_quartile := 15, median := 12, bottom_quartile := 8,
    insight_high := "You are investing heavily in transformation — AI, virtual care, and digital front door initiatives set you apart.",
    insight_low := "Low Transform spending may indicate limited innovation pipeline. Consider AI, telehealth, and interoperability investments.",
    insight_aligned := "Your Transform investment is in the typical range for healthcare.",
    source := "Gartner RGT Framework / CHIME" }

def hc_cloud_pct_budget_band : BandData :=
  { top_quartile := 25, median := 16, bottom_quartile := 10,
    insight_high := "You are cloud-forward for healthcare. Ensure HIPAA-compliant cloud governance and FinOps practices are in place.",
    insight_low := "Your cloud adoption is below the healthcare median. On-prem infrastructure may be limiting agility and interoperability.",
    insight_aligned := "Your cloud investment is on par with healthcare peers.",
    source := "Nutanix Healthcare ECI / Flexera" }

def hc_cybersecurity_pct_budget_band : BandData :=
  { top_quartile := 10, median := 7, bottom_quartile := 4,
    insight_high := "Strong security investment — critical in healthcare given the rise in ransomware attacks on health systems.",
    insight_low := "Your security spend is below the median — a serious risk flag. Healthcare is the #1 target for ransomware. Post-Change Healthcare breach, peers are investing heavily.",
    insight_aligned := "Your cybersecurity investment is in the typical range for healthcare.",
    source := "HIMSS Cybersecurity Survey / IANS Research" }

def hc_it_labor_pct_budget_band : BandData :=
  { top_quartile := 40, median := 48, bottom_quartile := 55,
    insight_high := "Labor is consuming a large share of budget. Healthcare IT requires specialized skills (clinical informatics, EHR analysts) — evaluate managed services for commodity functions.",
    insight_low := "Lean labor costs — verify clinical IT support and 24/7 coverage are not being compromised.",
    insight_aligned := "Your IT labor cost ratio is typical for healthcare.",
    source := "Avasant / ISG" }

def hc_outsourcing_pct_budget_band : BandData :=
  { top_quartile := 30, median := 22, bottom_quartile := 15,
    insight_high := "High outsourcing leverage — common in healthcare for cybersecurity, infrastructure, and help desk. Watch for HIPAA compliance in vendor contracts.",
    insight_low := "Low outsourcing may mean higher internal costs. Evaluate managed services for security, infrastructure, and service desk.",
    insight_aligned := "Your outsourcing level is typical for healthcare.",
    source := "Deloitte GOS / ISG" }

def hc_app_pct_budget_band : BandData :=
  { top_quartile := 45, median := 38, bottom_quartile := 30,
    insight_high := "Strong application investment — consistent with EHR optimization, clinical decision support, and patient engagement platforms.",
    insight_low := "Infrastructure-heavy spending may indicate aging on-prem data centers. Consider cloud migration to shift investment toward clinical applications.",
    insight_aligned := "Your application vs. infrastructure balance is in line with healthcare trends.",
    source := "HG Insights / Bain-KLAS" }

def hc_system_availability_band : BandData :=
  { top_quartile := 9999/100, median := 1999/20, bottom_quartile := 999/10,
    insight_high := "Excellent availability — critical for patient safety. You are at or near four-nines.",
    insight_low := "Your availability is below the median. In healthcare, EHR/clinical system downtime directly impacts patient care and safety.",
    insight_aligned := "Your availability is on par with healthcare industry norms.",
    source := "MetricNet / Healthcare SLA standards" }

def hc_it_attrition_rate_band : BandData :=
  { top_quartile := 10, median := 14, bottom_quartile := 18,
    insight_high := "High attrition is especially costly in healthcare IT where EHR expertise and clinical workflow knowledge are hard to replace.",
    insight_low := "Strong retention — a competitive advantage given the shortage of healthcare IT talent.",
    insight_aligned := "Your IT attrition is in the typical range for healthcare.",
    source := "LinkedIn / BLS / BambooHR" }

def hc_helpdesk_cost_per_ticket_band : BandData :=
  { top_quartile := 18, median := 30, bottom_quartile := 45,
    insight_high := "Your cost per ticket is above the median. Healthcare tickets are complex (EHR, clinical devices) — look at self-service portals and knowledge bases.",
    insight_low := "Efficient help desk operations for healthcare. Verify clinician satisfaction and first-call resolution are also strong.",
    insight_aligned := "Your help desk cost is in the typical range for healthcare.",
    source := "MetricNet / HDI / Medsphere" }

/-- The `"healthcare"` entry of `INDUSTRY_BENCHMARKS` from `src/data/benchmarks.py`. -/
def healthcare_bands : String → Option BandData := fun metric_id =>
  if metric_id = "it_spend_pct_revenue" then some hc_it_spend_pct_revenue_band
  else if metric_id = "it_spend_per_employee" then some hc_it_spend_per_employee_band
  else if metric_id = "it_spend_pct_opex" then some hc_it_spend_pct_opex_band
  else if metric_id = "it_budget_yoy_growth" then some hc_it_budget_yoy_growth_band
  else if metric_id = "it_staff_pct_employees" then some hc_it_staff_pct_employees_band
  else if metric_id = "it_staffing_ratio" then some hc_it_staffing_ratio_band
  else if metric_id = "run_budget_pct" then some hc_run_budget_pct_band
  else if metric_id = "grow_budget_pct" then some hc_grow_budget_pct_band
  else if metric_id = "transform_budget_pct" then some hc_transform_budget_pct_band
  else if metric_id = "cloud_pct_budget" then some hc_cloud_pct_budget_band
  else if metric_id = "cybersecurity_pct_budget" then some hc_cybersecurity_pct_budget_band
  else if metric_id = "it_labor_pct_budget" then some hc_it_labor_pct_budget_band
  else if metric_id = "outsourcing_pct_budget" then some hc_outsourcing_pct_budget_band
  else if metric_id = "app_pct_budget" then some hc_app_pct_budget_band
  else if metric_id = "system_availability" then some hc_system_availability_band
  else if metric_id = "it_attrition_rate" then some hc_it_attrition_rate_band
  else if metric_id = "helpdesk_cost_per_ticket" then some hc_helpdesk_cost_per_ticket_band
  else none

/-- `INDUSTRY_BENCHMARKS` from `src/data/benchmarks.py`: a two-level lookup.
`INDUSTRY_BENCHMARKS.get(industry, {})` for an unknown industry is the empty dict. -/
def INDUSTRY_BENCHMARKS : String → String → Option BandData := fun industry =>
  if industry = "financial_services" then financial_services_bands
  else if industry = "healthcare" then healthcare_bands
  else fun _ => none

/-- The merge `{**definition, **industry_data[metric_id]}` inside `get_benchmarks`:
industry band fields are layered over the shared definition fields (no key overlaps
between the two in the data, so this is a plain combination). -/
def mergeBench (d : MetricDefinition) (b : BandData) : Bench :=
  { name := d.name, category := d.category, unit := d.unit, format := d.format,
    direction := d.direction, description := d.description,
    top_quartile := b.top_quartile, median := b.median, bottom_quartile := b.bottom_quartile,
    insight_high := b.insight_high, insight_low := b.insight_low,
    insight_aligned := b.insight_aligned, source := b.source }

/-- `get_benchmarks` from `src/data/benchmarks.py`: a metric appears in the merged
result iff it has both a shared definition and an industry band. -/
def get_benchmarks (industry : String) : String → Option Bench := fun metric_id =>
  match METRIC_DEFINITIONS metric_id, INDUSTRY_BENCHMARKS industry metric_id with
  | some d, some b => some (mergeBench d b)
  | _, _ => none

/-- `METRIC_ORDER` from `src/data/benchmarks.py`. -/
def METRIC_ORDER : List String :=
  [ "it_spend_pct_revenue", "it_spend_per_employee", "it_spend_pct_opex",
    "it_budget_yoy_growth", "it_staff_pct_employees", "it_staffing_ratio",
    "run_budget_pct", "grow_budget_pct", "transform_budget_pct",
    "cloud_pct_budget", "cybersecurity_pct_budget", "it_labor_pct_budget",
    "outsourcing_pct_budget", "app_pct_budget", "system_availability",
    "it_attrition_rate", "helpdesk_cost_per_ticket" ]

/-- Raw client inputs: a Python dict of numeric fields, any of which may be absent.
`client_data.get(k, 0)` is `(d k).getD 0`; `client_data.get(k, None)` is `d k`. -/
def ClientData : Type := String → Option ℚ

/-- `compute_derived_metrics` from `src/analysis/engine.py`, as a lookup function
from metric id to the computed value (`none` models a key stripped/absent from the
returned dict). -/
def compute_derived_metrics (client_data : ClientData) : String → Option ℚ :=
  fun metric_id =>
  let revenue := (client_data "revenue").getD 0
  let total_employees := (client_data "total_employees").getD 0
  let it_budget := (client_data "it_budget").getD 0
  let it_budget_prior := (client_data "it_budget_prior_year").getD 0
  let it_ftes := (client_data "it_ftes").getD 0
  let total_opex := (client_data "total_opex").getD 0
  if metric_id = "it_spend_pct_revenue" then
    if revenue > 0 then some (it_budget / revenue * 100) else none
  else if metric_id = "it_spend_per_employee" then
    if total_employees > 0 then some (it_budget / total_employees) else none
  else if metric_id = "it_spend_pct_opex" then
    if total_opex > 0 then some (it_budget / total_opex * 100) else none
  else if metric_id = "it_budget_yoy_growth" then
    if it_budget_prior > 0 then
      some ((it_budget - it_budget_prior) / it_budget_prior * 100)
    else none
  else if metric_id = "it_staff_pct_employees" then
    if total_employees > 0 then some (it_ftes / total_employees * 100) else none
  else if metric_id = "it_staffing_ratio" then
    if it_ftes > 0 then some (total_employees / it_ftes) else none
  else if metric_id = "run_budget_pct" then client_data "run_pct"
  else if metric_id = "grow_budget_pct" then client_data "grow_pct"
  else if metric_id = "transform_budget_pct" then client_data "transform_pct"
  else if metric_id = "cloud_pct_budget" then
    if it_budget > 0 then
      some ((client_data "cloud_spend").getD 0 / it_budget * 100)
    else none
  else if metric_id = "cybersecurity_pct_budget" then
    if it_budget > 0 then
      some ((client_data "cybersecurity_spend").getD 0 / it_budget * 100)
    else none
  else if metric_id = "it_labor_pct_budget" then
    if it_budget > 0 then
      some ((client_data "it_labor_cost").getD 0 / it_budget * 100)
    else none
  else if metric_id = "outsourcing_pct_budget" then
    if it_budget > 0 then
      some ((client_data "outsourcing_spend").getD 0 / it_budget * 100)
    else none
  else if metric_id = "app_pct_budget" then
    if it_budget > 0 then
      let app_spend := (client_data "application_spend").getD 0
      let infra_spend := (client_data "infrastructure_spend").getD 0
      let total_app_infra := app_spend + infra_spend
      if total_app_infra > 0 then some (app_spend / total_app_infra * 100) else none
    else none
  else if metric_id = "system_availability" then client_data "system_availability"
  else if metric_id = "it_attrition_rate" then client_data "it_attrition_rate"
  else if metric_id = "helpdesk_cost_per_ticket" then client_data "helpdesk_cost_per_ticket"
  else none

/-- `get_quartile_position` from `src/analysis/engine.py`. -/
def get_quartile_position (bench : Bench) (value : ℚ) : String :=
  let tq := bench.top_quartile
  let med := bench.median
  let bq := bench.bottom_quartile
  if bench.direction = "lower_is_better" then
    if value ≤ tq then "top_quartile"
    else if value ≤ med then "above_median"
    else if value ≤ bq then "below_median"
    else "bottom_quartile"
  else
    if value ≥ tq then "top_quartile"
    else if value ≥ med then "above_median"
    else if value ≥ bq then "below_median"
    else "bottom_quartile"

/-- `normalize_score` from `src/analysis/engine.py`. -/
def normalize_score (bench : Bench) (value : ℚ) : ℚ :=
  let tq := bench.top_quartile
  let med := bench.median
  let bq := bench.bottom_quartile
  if bench.direction = "lower_is_better" then
    if value ≤ tq then 100
    else if value ≥ bq then 0
    else if value ≤ med then
      let range_val := med - tq
      if range_val = 0 then 75 else 50 + 50 * (med - value) / range_val
    else
      let range_val := bq - med
      if range_val = 0 then 25 else 50 * (bq - value) / range_val
  else
    if value ≥ tq then 100
    else if value ≤ bq then 0
    else if value ≥ med then
      let range_val := tq - med
      if range_val = 0 then 75 else 50 + 50 * (value - med) / range_val
    else
      let range_val := med - bq
      if range_val = 0 then 25 else 50 * (value - bq) / range_val

/-- `get_insight` from `src/analysis/engine.py`. -/
def get_insight (bench : Bench) (quartile : String) : String :=
  if quartile = "top_quartile" ∨ quartile = "above_median" then
    if bench.direction = "lower_is_better" then bench.insight_low
    else bench.insight_high
  else if quartile = "bottom_quartile" ∨ quartile = "below_median" then
    if bench.direction = "lower_is_better" then bench.insight_high
    else bench.insight_low
  else bench.insight_aligned

/-- The `{delta, delta_pct}` dict returned by `get_delta_vs_median`. -/
structure DeltaResult where
  delta : ℚ
  delta_pct : ℚ
deriving DecidableEq, Inhabited

/-- `get_delta_vs_median` from `src/analysis/engine.py`. -/
def get_delta_vs_median (bench : Bench) (value : ℚ) : DeltaResult :=
  let med := bench.median
  let delta := value - med
  { delta := delta, delta_pct := if med ≠ 0 then delta / med * 100 else 0 }

/-- One result record appended by `run_full_analysis`. -/
structure MetricResult where
  metric_id : String
  name : String
  category : String
  unit : String
  format : String
  value : ℚ
  top_quartile : ℚ
  median : ℚ
  bottom_quartile : ℚ
  direction : String
  quartile : String
  score : ℚ
  delta : ℚ
  delta_pct : ℚ
  insight : String
  source : String
deriving DecidableEq, Inhabited

/-- `run_full_analysis` from `src/analysis/engine.py`: iterate `METRIC_ORDER`,
skipping metric ids absent from either the derived values or the catalog. -/
def run_full_analysis (client_data : ClientData) (industry : String) :
    List MetricResult :=
  let benchmarks := get_benchmarks industry
  let derived := compute_derived_metrics client_data
  METRIC_ORDER.filterMap fun metric_id =>
    match derived metric_id, benchmarks metric_id with
    | some value, some bench =>
      let quartile := get_quartile_position bench value
      let score := normalize_score bench value
      let delta := get_delta_vs_median bench value
      let insight := get_insight bench quartile
      some
        { metric_id := metric_id, name := bench.name, category := bench.category,
          unit := bench.unit, format := bench.format, value := value,
          top_quartile := bench.top_quartile, median := bench.median,
          bottom_quartile := bench.bottom_quartile, direction := bench.direction,
          quartile := quartile, score := score,
          delta := delta.delta, delta_pct := delta.delta_pct,
          insight := insight, source := bench.source }
    | _, _ => none

/-- The summary dict returned by `get_summary_stats`. -/
structure SummaryStats where
  total : ℕ
  top_q : ℕ
  above_med : ℕ
  below_med : ℕ
  bottom_q : ℕ
  avg_score : ℚ
deriving DecidableEq, Inhabited

/-- `get_summary_stats` from `src/analysis/engine.py`. -/
def get_summary_stats (results : List MetricResult) : SummaryStats :=
  let total := results.length
  if total = 0 then
    { total := 0, top_q := 0, above_med := 0, below_med := 0, bottom_q := 0,
      avg_score := 0 }
  else
    { total := total,
      top_q := (results.filter fun r => r.quartile = "top_quartile").length,
      above_med := (results.filter fun r => r.quartile = "above_median").length,
      below_med := (results.filter fun r => r.quartile = "below_median").length,
      bottom_q := (results.filter fun r => r.quartile = "bottom_quartile").length,
      avg_score := (results.map fun r => r.score).sum / (total : ℚ) }

/-- The spec's worked example inputs: `{revenue: 1_000_000_000, it_budget: 70_000_000}`. -/
def c5_client : ClientData := fun k =>
  if k = "revenue" then some 1000000000
  else if k = "it_budget" then some 70000000
  else none

/-- Inputs with a positive IT budget and every other field absent. -/
def c4_client : ClientData := fun k =>
  if k = "it_budget" then some 100 else none

/-- Inputs with a positive IT budget and positive application/infrastructure spend. -/
def c8_client : ClientData := fun k =>
  if k = "it_budget" then some 100
  else if k = "application_spend" then some 30
  else if k = "infrastructure_spend" then some 20
  else none

/-- The catalog band for `it_spend_pct_revenue` in `financial_services`
(thresholds 5.7 / 7.9 / 11.4, `lower_is_better`). -/
def fs_it_spend_band : Bench :=
  (get_benchmarks "financial_services" "it_spend_pct_revenue").getD default

/-- A constructed band with `top_quartile == median` (a degenerate upper segment),
used to probe the degenerate-band behaviour of `normalize_score`. -/
def degenerate_band : Bench :=
  { name := "Degenerate Metric", category := "Spend", unit := "%", format := ".1f",
    direction := "lower_is_better",
    description := "A band whose top-quartile and median thresholds coincide.",
    top_quartile := 2, median := 2, bottom_quartile := 4,
    insight_high := "high text", insight_low := "low text",
    insight_aligned := "aligned text", source := "constructed" }

/-- The first result record of the worked example analysis. -/
def c10_result : MetricResult :=
  (run_full_analysis c5_client "financial_services").headI

/-! Arithmetic facts about the two linear segments used by `normalize_score`. -/

theorem seg_add_ge_50 {a b : ℚ} (hb : 0 < b) (ha : 0 ≤ a) :
    50 ≤ 50 + 50 * a / b := by
  have h : 0 ≤ 50 * a / b := div_nonneg (by linarith) hb.le
  linarith

theorem seg_add_le_100 {a b : ℚ} (hb : 0 < b) (hab : a ≤ b) :
    50 + 50 * a / b ≤ 100 := by
  have h : 50 * a / b ≤ 50 := by
    rw [div_le_iff₀ hb]
    nlinarith
  linarith

theorem seg_le_50 {a b : ℚ} (hb : 0 < b) (hab : a ≤ b) : 50 * a / b ≤ 50 := by
  rw [div_le_iff₀ hb]
  nlinarith

theorem seg_nonneg {a b : ℚ} (hb : 0 < b) (ha : 0 ≤ a) : 0 ≤ 50 * a / b :=
  div_nonneg (by linarith) hb.le

theorem seg_mono {a c b : ℚ} (hb : 0 < b) (hac : a ≤ c) :
    50 * a / b ≤ 50 * c / b := by
  have h := mul_le_mul_of_nonneg_right hac hb.le
  rw [div_le_div_iff₀ hb hb]
  nlinarith

/-! Region lemmas for `normalize_score`: in each of the four regions the score
reduces to an explicit expression. -/

theorem score_lower_top (bench : Bench) (hd : bench.direction = "lower_is_better")
    {v : ℚ} (hv : v ≤ bench.top_quartile) : normalize_score bench v = 100 := by
  unfold normalize_score
  rw [if_pos hd, if_pos hv]

theorem score_lower_bottom (bench : Bench) (hd : bench.direction = "lower_is_better")
    {v : ℚ} (htv : bench.top_quartile < v) (hv : bench.bottom_quartile ≤ v) :
    normalize_score bench v = 0 := by
  unfold normalize_score
  rw [if_pos hd, if_neg (by linarith), if_pos (by exact hv)]

theorem score_lower_upper_seg (bench : Bench)
    (hd : bench.direction = "lower_is_better")
    {v : ℚ} (htv : bench.top_quartile < v) (hvm : v ≤ bench.median)
    (hmb : bench.median < bench.bottom_quartile) :
    normalize_score bench v =
      50 + 50 * (bench.median - v) / (bench.median - bench.top_quartile) := by
  unfold normalize_score
  rw [if_pos hd, if_neg (by linarith), if_neg (by simp only [ge_iff_le, not_le]; linarith),
    if_pos hvm, if_neg (by intro h; linarith)]

theorem score_lower_lower_seg (bench : Bench)
    (hd : bench.direction = "lower_is_better")
    (htm : bench.top_quartile ≤ bench.median)
    {v : ℚ} (hmv : bench.median < v) (hvb : v < bench.bottom_quartile) :
    normalize_score bench v =
      50 * (bench.bottom_quartile - v) / (bench.bottom_quartile - bench.median) := by
  unfold normalize_score
  rw [if_pos hd, if_neg (by linarith), if_neg (by simp only [ge_iff_le, not_le]; linarith),
    if_neg (by linarith), if_neg (by intro h; linarith)]

theorem score_higher_top (bench : Bench) (hd : bench.direction ≠ "lower_is_better")
    {v : ℚ} (hv : bench.top_quartile ≤ v) : normalize_score bench v = 100 := by
  unfold normalize_score
  rw [if_neg hd, if_pos (by exact hv)]

theorem score_higher_bottom (bench : Bench) (hd : bench.direction ≠ "lower_is_better")
    {v : ℚ} (hvt : v < bench.top_quartile) (hv : v ≤ bench.bottom_quartile) :
    normalize_score bench v = 0 := by
  unfold normalize_score
  rw [if_neg hd, if_neg (by simp only [ge_iff_le, not_le]; linarith), if_pos hv]

theorem score_higher_upper_seg (bench : Bench)
    (hd : bench.direction ≠ "lower_is_better")
    {v : ℚ} (hvt : v < bench.top_quartile) (hmv : bench.median ≤ v)
    (hbm : bench.bottom_quartile < bench.median) :
    normalize_score bench v =
      50 + 50 * (v - bench.median) / (bench.top_quartile - bench.median) := by
  unfold normalize_score
  rw [if_neg hd, if_neg (by simp only [ge_iff_le, not_le]; linarith),
    if_neg (by linarith), if_pos (by exact hmv), if_neg (by intro h; linarith)]

theorem score_higher_lower_seg (bench : Bench)
    (hd : bench.direction ≠ "lower_is_better")
    (hmt : bench.median ≤ bench.top_quartile)
    {v : ℚ} (hbv : bench.bottom_quartile < v) (hvm : v < bench.median) :
    normalize_score bench v =
      50 * (v - bench.bottom_quartile) / (bench.median - bench.bottom_quartile) := by
  unfold normalize_score
  rw [if_neg hd, if_neg (by simp only [ge_iff_le, not_le]; linarith),
    if_neg (by linarith), if_neg (by simp only [ge_iff_le, not_le]; linarith),
    if_neg (by intro h; linarith)]

/-! Bounds and monotonicity of `normalize_score` over a consistently ordered band. -/

theorem score_nonneg_lower (bench : Bench) (hd : bench.direction = "lower_is_better")
    (h1 : bench.top_quartile < bench.median)
    (h2 : bench.median < bench.bottom_quartile) (v : ℚ) :
    0 ≤ normalize_score bench v := by
  rcases le_or_lt v bench.top_quartile with hv | hv
  · rw [score_lower_top bench hd hv]; norm_num
  · rcases le_or_lt v bench.median with hm | hm
    · rw [score_lower_upper_seg bench hd hv hm h2]
      have := seg_add_ge_50 (show (0:ℚ) < bench.median - bench.top_quartile by linarith)
        (show (0:ℚ) ≤ bench.median - v by linarith)
      linarith
    · rcases lt_or_le v bench.bottom_quartile with hb | hb
      · rw [score_lower_lower_seg bench hd h1.le hm hb]
        exact seg_nonneg (by linarith) (by linarith)
      · rw [score_lower_bottom bench hd (by linarith) hb]

theorem score_antitone_lower (bench : Bench)
    (hd : bench.direction = "lower_is_better")
    (h1 : bench.top_quartile < bench.median)
    (h2 : bench.median < bench.bottom_quartile)
    {v1 v2 : ℚ} (h12 : v1 ≤ v2) :
    normalize_score bench v2 ≤ normalize_score bench v1 := by
  rcases le_or_lt v2 bench.top_quartile with c2 | c2
  · rw [score_lower_top bench hd c2, score_lower_top bench hd (le_trans h12 c2)]
  · rcases le_or_lt v2 bench.median with d2 | d2
    · rw [score_lower_upper_seg bench hd c2 d2 h2]
      rcases le_or_lt v1 bench.top_quartile with c1 | c1
      · rw [score_lower_top bench hd c1]
        exact seg_add_le_100 (by linarith) (by linarith)
      · rw [score_lower_upper_seg bench hd c1 (le_trans h12 d2) h2]
        have := seg_mono (show (0:ℚ) < bench.median - bench.top_quartile by linarith)
          (show bench.median - v2 ≤ bench.median - v1 by linarith)
        linarith
    · rcases lt_or_le v2 bench.bottom_quartile with e2 | e2
      · rw [score_lower_lower_seg bench hd h1.le d2 e2]
        rcases le_or_lt v1 bench.top_quartile with c1 | c1
        · rw [score_lower_top bench hd c1]
          have := seg_le_50 (show (0:ℚ) < bench.bottom_quartile - bench.median by linarith)
            (show bench.bottom_quartile - v2 ≤ bench.bottom_quartile - bench.median by linarith)
          linarith
        · rcases le_or_lt v1 bench.median with d1 | d1
          · rw [score_lower_upper_seg bench hd c1 d1 h2]
            have hA := seg_le_50 (show (0:ℚ) < bench.bottom_quartile - bench.median by linarith)
              (show bench.bottom_quartile - v2 ≤ bench.bottom_quartile - bench.median by linarith)
            have hB := seg_add_ge_50 (show (0:ℚ) < bench.median - bench.top_quartile by linarith)
              (show (0:ℚ) ≤ bench.median - v1 by linarith)
            linarith
          · rw [score_lower_lower_seg bench hd h1.le d1 (lt_of_le_of_lt h12 e2)]
            have := seg_mono (show (0:ℚ) < bench.bottom_quartile - bench.median by linarith)
              (show bench.bottom_quartile - v2 ≤ bench.bottom_quartile - v1 by linarith)
            linarith
      · rw [score_lower_bottom bench hd (by linarith) e2]
        exact score_nonneg_lower bench hd h1 h2 v1

theorem score_nonneg_higher (bench : Bench) (hd : bench.direction ≠ "lower_is_better")
    (h1 : bench.bottom_quartile < bench.median)
    (h2 : bench.median < bench.top_quartile) (v : ℚ) :
    0 ≤ normalize_score bench v := by
  rcases le_or_lt bench.top_quartile v with hv | hv
  · rw [score_higher_top bench hd hv]; norm_num
  · rcases le_or_lt bench.median v with hm | hm
    · rw [score_higher_upper_seg bench hd hv hm h1]
      have := seg_add_ge_50 (show (0:ℚ) < bench.top_quartile - bench.median by linarith)
        (show (0:ℚ) ≤ v - bench.median by linarith)
      linarith
    · rcases lt_or_le bench.bottom_quartile v with hb | hb
      · rw [score_higher_lower_seg bench hd h2.le hb hm]
        exact seg_nonneg (by linarith) (by linarith)
      · rw [score_higher_bottom bench hd (by linarith) hb]

theorem score_monotone_higher (bench : Bench)
    (hd : bench.direction ≠ "lower_is_better")
    (h1 : bench.bottom_quartile < bench.median)
    (h2 : bench.median < bench.top_quartile)
    {v1 v2 : ℚ} (h12 : v1 ≤ v2) :
    normalize_score bench v1 ≤ normalize_score bench v2 := by
  rcases le_or_lt bench.top_quartile v1 with c1 | c1
  · rw [score_higher_top bench hd c1, score_higher_top bench hd (le_trans c1 h12)]
  · rcases le_or_lt bench.median v1 with d1 | d1
    · rw [score_higher_upper_seg bench hd c1 d1 h1]
      rcases le_or_lt bench.top_quartile v2 with c2 | c2
      · rw [score_higher_top bench hd c2]
        exact seg_add_le_100 (by linarith) (by linarith)
      · rw [score_higher_upper_seg bench hd c2 (le_trans d1 h12) h1]
        have := seg_mono (show (0:ℚ) < bench.top_quartile - bench.median by linarith)
          (show v1 - bench.median ≤ v2 - bench.median by linarith)
        linarith
    · rcases lt_or_le bench.bottom_quartile v1 with e1 | e1
      · rw [score_higher_lower_seg bench hd h2.le e1 d1]
        rcases le_or_lt bench.top_quartile v2 with c2 | c2
        · rw [score_higher_top bench hd c2]
          have := seg_le_50 (show (0:ℚ) < bench.median - bench.bottom_quartile by linarith)
            (show v1 - bench.bottom_quartile ≤ bench.median - bench.bottom_quartile by linarith)
          linarith
        · rcases le_or_lt bench.median v2 with d2 | d2
          · rw [score_higher_upper_seg bench hd c2 d2 h1]
            have hA := seg_le_50 (show (0:ℚ) < bench.median - bench.bottom_quartile by linarith)
              (show v1 - bench.bottom_quartile ≤ bench.median - bench.bottom_quartile by linarith)
            have hB := seg_add_ge_50 (show (0:ℚ) < bench.top_quartile - bench.median by linarith)
              (show (0:ℚ) ≤ v2 - bench.median by linarith)
            linarith
          · rw [score_higher_lower_seg bench hd h2.le (lt_of_lt_of_le e1 h12) d2]
            have := seg_mono (show (0:ℚ) < bench.median - bench.bottom_quartile by linarith)
              (show v1 - bench.bottom_quartile ≤ v2 - bench.bottom_quartile by linarith)
            linarith
      · rw [score_higher_bottom bench hd (by linarith) e1]
        exact score_nonneg_higher bench hd h1 h2 v2

/-! `get_quartile_position` always lands in the four quartile labels, and
`get_insight` maps each of them to a directional text. -/

theorem quartile_position_cases (bench : Bench) (value : ℚ) :
    get_quartile_position bench value = "top_quartile" ∨
    get_quartile_position bench value = "above_median" ∨
    get_quartile_position bench value = "below_median" ∨
    get_quartile_position bench value = "bottom_quartile" := by
  simp only [get_quartile_position]
  split_ifs <;> simp

theorem insight_high_or_low (bench : Bench) (q : String)
    (hq : q = "top_quartile" ∨ q = "above_median" ∨
          q = "below_median" ∨ q = "bottom_quartile") :
    get_insight bench q = bench.insight_high ∨
    get_insight bench q = bench.insight_low := by
  rcases hq with h | h | h | h <;> subst h <;> unfold get_insight <;>
    split_ifs <;> simp_all

/-! In both industry tables, every band's aligned text differs from its
high and low texts. -/

set_option maxHeartbeats 2000000 in
theorem bands_insights_distinct (industry metric_id : String) (b : BandData)
    (h : INDUSTRY_BENCHMARKS industry metric_id = some b) :
    b.insight_aligned ≠ b.insight_high ∧ b.insight_aligned ≠ b.insight_low := by
  unfold INDUSTRY_BENCHMARKS at h
  split_ifs at h
  · unfold financial_services_bands at h
    by_cases h1 : metric_id = "it_spend_pct_revenue"
    · rw [if_pos h1] at h
      injection h with h
      subst h
      exact ⟨by decide, by decide⟩
    rw [if_neg h1] at h
    by_cases h2 : metric_id = "it_spend_per_employee"
    · rw [if_pos h2] at h
      injection h with h
      subst h
      exact ⟨by decide, by decide⟩
    rw [if_neg h2] at h
    by_cases h3 : metric_id = "it_spend_pct_opex"
    · rw [if_pos h3] at h
      injection h with h
      subst h
      exact ⟨by decide, by decide⟩
    rw [if_neg h3] at h
    by_cases h4 : metric_id = "it_budget_yoy_growth"
    · rw [if_pos h4] at h
      injection h with h
      subst h
      exact ⟨by decide, by decide⟩
    rw [if_neg h4] at h
    by_cases h5 : metric_id = "it_staff_pct_employees"
    · rw [if_pos h5] at h
      injection h with h
      subst h
      exact ⟨by decide, by decide⟩
    rw [if_neg h5] at h
    by_cases h6 : metric_id = "it_staffing_ratio"
    · rw [if_pos h6] at h
      injection h with h
      subst h
      exact ⟨by decide, by decide⟩
    rw [if_neg h6] at h
    by_cases h7 : metric_id = "run_budget_pct"
    · rw [if_pos h7] at h
      injection h with h
      subst h
      exact ⟨by decide, by decide⟩
    rw [if_neg h7] at h
    by_cases h8 : metric_id = "grow_budget_pct"
    · rw [if_pos h8] at h
      injection h with h
      subst h
      exact ⟨by decide, by decide⟩
    rw [if_neg h8] at h
    by_cases h9 : metric_id = "transform_budget_pct"
    · rw [if_pos h9] at h
      injection h with h
      subst h
      exact ⟨by decide, by decide⟩
    rw [if_neg h9] at h
    by_cases h10 : metric_id = "cloud_pct_budget"
    · rw [if_pos h10] at h
      injection h with h
      subst h
      exact ⟨by decide, by decide⟩
    rw [if_neg h10] at h
    by_cases h11 : metric_id = "cybersecurity_pct_budget"
    · rw [if_pos h11] at h
      injection h with h
      subst h
      exact ⟨by decide, by decide⟩
    rw [if_neg h11] at h
    by_cases h12 : metric_id = "it_labor_pct_budget"
    · rw [if_pos h12] at h
      injection h with h
      subst h
      exact ⟨by decide, by decide⟩
    rw [if_neg h12] at h
    by_cases h13 : metric_id = "outsourcing_pct_budget"
    · rw [if_pos h13] at h
      injection h with h
      subst h
      exact ⟨by decide, by decide⟩
    rw [if_neg h13] at h
    by_cases h14 : metric_id = "app_pct_budget"
    · rw [if_pos h14] at h
      injection h with h
      subst h
      exact ⟨by decide, by decide⟩
    rw [if_neg h14] at h
    by_cases h15 : metric_id = "system_availability"
    · rw [if_pos h15] at h
      injection h with h
      subst h
      exact ⟨by decide, by decide⟩
    rw [if_neg h15] at h
    by_cases h16 : metric_id = "it_attrition_rate"
    · rw [if_pos h16] at h
      injection h with h
      subst h
      exact ⟨by decide, by decide⟩
    rw [if_neg h16] at h
    by_cases h17 : metric_id = "helpdesk_cost_per_ticket"
    · rw [if_pos h17] at h
      injection h with h
      subst h
      exact ⟨by decide, by decide⟩
    rw [if_neg h17] at h
    exact Option.noConfusion h
  · unfold healthcare_bands at h
    by_cases h1 : metric_id = "it_spend_pct_revenue"
    · rw [if_pos h1] at h
      injection h with h
      subst h
      exact ⟨by decide, by decide⟩
    rw [if_neg h1] at h
    by_cases h2 : metric_id = "it_spend_per_employee"
    · rw [if_pos h2] at h
      injection h with h
      subst h
      exact ⟨by decide, by decide⟩
    rw [if_neg h2] at h
    by_cases h3 : metric_id = "it_spend_pct_opex"
    · rw [if_pos h3] at h
      injection h with h
      subst h
      exact ⟨by decide, by decide⟩
    rw [if_neg h3] at h
    by_cases h4 : metric_id = "it_budget_yoy_growth"
    · rw [if_pos h4] at h
      injection h with h
      subst h
      exact ⟨by decide, by decide⟩
    rw [if_neg h4] at h
    by_cases h5 : metric_id = "it_staff_pct_employees"
    · rw [if_pos h5] at h
      injection h with h
      subst h
      exact ⟨by decide, by decide⟩
    rw [if_neg h5] at h
    by_cases h6 : metric_id = "it_staffing_ratio"
    · rw [if_pos h6] at h
      injection h with h
      subst h
      exact ⟨by decide, by decide⟩
    rw [if_neg h6] at h
    by_cases h7 : metric_id = "run_budget_pct"
    · rw [if_pos h7] at h
      injection h with h
      subst h
      exact ⟨by decide, by decide⟩
    rw [if_neg h7] at h
    by_cases h8 : metric_id = "grow_budget_pct"
    · rw [if_pos h8] at h
      injection h with h
      subst h
      exact ⟨by decide, by decide⟩
    rw [if_neg h8] at h
    by_cases h9 : metric_id = "transform_budget_pct"
    · rw [if_pos h9] at h
      injection h with h
      subst h
      exact ⟨by decide, by decide⟩
    rw [if_neg h9] at h
    by_cases h10 : metric_id = "cloud_pct_budget"
    · rw [if_pos h10] at h
      injection h with h
      subst h
      exact ⟨by decide, by decide⟩
    rw [if_neg h10] at h
    by_cases h11 : metric_id = "cybersecurity_pct_budget"
    · rw [if_pos h11] at h
      injection h with h
      subst h
      exact ⟨by decide, by decide⟩
    rw [if_neg h11] at h
    by_cases h12 : metric_id = "it_labor_pct_budget"
    · rw [if_pos h12] at h
      injection h with h
      subst h
      exact ⟨by decide, by decide⟩
    rw [if_neg h12] at h
    by_cases h13 : metric_id = "outsourcing_pct_budget"
    · rw [if_pos h13] at h
      injection h with h
      subst h
      exact ⟨by decide, by decide⟩
    rw [if_neg h13] at h
    by_cases h14 : metric_id = "app_pct_budget"
    · rw [if_pos h14] at h
      injection h with h
      subst h
      exact ⟨by decide, by decide⟩
    rw [if_neg h14] at h
    by_cases h15 : metric_id = "system_availability"
    · rw [if_pos h15] at h
      injection h with h
      subst h
      exact ⟨by decide, by decide⟩
    rw [if_neg h15] at h
    by_cases h16 : metric_id = "it_attrition_rate"
    · rw [if_pos h16] at h
      injection h with h
      subst h
      exact ⟨by decide, by decide⟩
    rw [if_neg h16] at h
    by_cases h17 : metric_id = "helpdesk_cost_per_ticket"
    · rw [if_pos h17] at h
      injection h with h
      subst h
      exact ⟨by decide, by decide⟩
    rw [if_neg h17] at h
    exact Option.noConfusion h

theorem catalog_insights_distinct (industry metric_id : String) (bench : Bench)
    (h : get_benchmarks industry metric_id = some bench) :
    bench.insight_aligned ≠ bench.insight_high ∧
    bench.insight_aligned ≠ bench.insight_low := by
  unfold get_benchmarks at h
  rcases hdef : METRIC_DEFINITIONS metric_id with _ | d <;> rw [hdef] at h <;>
    rcases hband : INDUSTRY_BENCHMARKS industry metric_id with _ | b <;>
      rw [hband] at h <;> simp only [reduceCtorEq] at h
  injection h with h
  subst h
  exact bands_insights_distinct industry metric_id b hband

/-! Every record in a `run_full_analysis` result list comes from a metric id with
both a derived value and a catalog band. -/

theorem run_full_analysis_mem (client_data : ClientData) (industry : String)
    (r : MetricResult) (hr : r ∈ run_full_analysis client_data industry) :
    ∃ m value bench,
      compute_derived_metrics client_data m = some value ∧
      get_benchmarks industry m = some bench ∧
      r.metric_id = m ∧
      r.quartile = get_quartile_position bench value ∧
      r.score = normalize_score bench value ∧
      r.insight = get_insight bench (get_quartile_position bench value) := by
  unfold run_full_analysis at hr
  rw [List.mem_filterMap] at hr
  obtain ⟨m, _, hf⟩ := hr
  rcases hv : compute_derived_metrics client_data m with _ | value <;> rw [hv] at hf
  · simp at hf
  rcases hb : get_benchmarks industry m with _ | bench <;> rw [hb] at hf
  · simp at hf
  simp only [Option.some.injEq] at hf
  subst hf
  exact ⟨m, value, bench, hv, hb, rfl, rfl, rfl, rfl⟩

unseal Rat.mul Rat.inv Rat.add Rat.sub Nat.gcd in
/-- C1: the claim as stated is false on the code. For the financial-services
`it_spend_pct_revenue` band (direction `lower_is_better`) and the better-half
bucket `top_quartile`, `get_insight` does not return the band's `insight_high`
text (it returns `insight_low`). -/
theorem C1_counterexample :
    get_benchmarks "financial_services" "it_spend_pct_revenue" = some fs_it_spend_band ∧
    fs_it_spend_band.direction = "lower_is_better" ∧
    get_insight fs_it_spend_band "top_quartile" ≠ fs_it_spend_band.insight_high ∧
    get_insight fs_it_spend_band "top_quartile" = fs_it_spend_band.insight_low := by
  decide

/-- C1 (amended): for every band and quartile bucket, in the better half
(`top_quartile` or `above_median`) `get_insight` returns `insight_low` when the
direction is `lower_is_better` and `insight_high` otherwise; in the worse half
(`bottom_quartile` or `below_median`) it returns `insight_high` when the
direction is `lower_is_better` and `insight_low` otherwise; and for any other
bucket value it returns `insight_aligned`. -/
theorem C1_insight_selection (bench : Bench) (quartile : String) :
    ((quartile = "top_quartile" ∨ quartile = "above_median") →
      get_insight bench quartile =
        if bench.direction = "lower_is_better" then bench.insight_low
        else bench.insight_high) ∧
    ((quartile = "bottom_quartile" ∨ quartile = "below_median") →
      get_insight bench quartile =
        if bench.direction = "lower_is_better" then bench.insight_high
        else bench.insight_low) ∧
    (quartile ≠ "top_quartile" → quartile ≠ "above_median" →
     quartile ≠ "bottom_quartile" → quartile ≠ "below_median" →
      get_insight bench quartile = bench.insight_aligned) := by
  refine ⟨?_, ?_, ?_⟩
  · rintro (h | h) <;> subst h <;> simp [get_insight]
  · rintro (h | h) <;> subst h <;> simp [get_insight]
  · intro h1 h2 h3 h4
    simp [get_insight, h1, h2, h3, h4]

/-- C1 witness: the amended selection rule at a concrete band and bucket. -/
theorem C1_witness :
    get_insight fs_it_spend_band "top_quartile" =
      if fs_it_spend_band.direction = "lower_is_better" then fs_it_spend_band.insight_low
      else fs_it_spend_band.insight_high :=
  (C1_insight_selection fs_it_spend_band "top_quartile").1 (Or.inl rfl)

unseal Rat.mul Rat.inv Rat.add Rat.sub Nat.gcd in
/-- C2: the claim as stated is false on the code. For the financial-services
`it_spend_pct_revenue` band (ordered, `lower_is_better`) at the value exactly
equal to the bottom-quartile threshold 11.4, `normalize_score` is 0.0 but
`get_quartile_position` returns `below_median`, not `bottom_quartile`. -/
theorem C2_counterexample :
    fs_it_spend_band.direction = "lower_is_better" ∧
    fs_it_spend_band.top_quartile < fs_it_spend_band.median ∧
    fs_it_spend_band.median < fs_it_spend_band.bottom_quartile ∧
    fs_it_spend_band.bottom_quartile = 57/5 ∧
    normalize_score fs_it_spend_band (57/5) = 0 ∧
    get_quartile_position fs_it_spend_band (57/5) ≠ "bottom_quartile" ∧
    get_quartile_position fs_it_spend_band (57/5) = "below_median" := by
  decide

/-- C2 (amended): for every consistently ordered band and every value at or
beyond the bottom-quartile threshold in the unfavorable direction,
`normalize_score` returns exactly 0.0; `get_quartile_position` returns
`bottom_quartile` for values strictly beyond the threshold, and `below_median`
at the value exactly equal to the threshold. -/
theorem C2_bottom_quartile_boundary (bench : Bench) (value : ℚ) :
    (bench.direction = "lower_is_better" →
     bench.top_quartile < bench.median → bench.median < bench.bottom_quartile →
      (bench.bottom_quartile ≤ value → normalize_score bench value = 0) ∧
      (bench.bottom_quartile < value →
        get_quartile_position bench value = "bottom_quartile") ∧
      (value = bench.bottom_quartile →
        get_quartile_position bench value = "below_median")) ∧
    (bench.direction ≠ "lower_is_better" →
     bench.bottom_quartile < bench.median → bench.median < bench.top_quartile →
      (value ≤ bench.bottom_quartile → normalize_score bench value = 0) ∧
      (value < bench.bottom_quartile →
        get_quartile_position bench value = "bottom_quartile") ∧
      (value = bench.bottom_quartile →
        get_quartile_position bench value = "below_median")) := by
  constructor
  · intro hd h1 h2
    refine ⟨fun hv => score_lower_bottom bench hd (by linarith) hv, ?_, ?_⟩
    · intro hv
      unfold get_quartile_position
      rw [if_pos hd, if_neg (by linarith), if_neg (by linarith), if_neg (by linarith)]
    · intro hv
      subst hv
      unfold get_quartile_position
      rw [if_pos hd, if_neg (by linarith), if_neg (by linarith), if_pos le_rfl]
  · intro hd h1 h2
    refine ⟨fun hv => score_higher_bottom bench hd (by linarith) hv, ?_, ?_⟩
    · intro hv
      unfold get_quartile_position
      rw [if_neg hd, if_neg (by simp only [ge_iff_le, not_le]; linarith),
        if_neg (by simp only [ge_iff_le, not_le]; linarith),
        if_neg (by simp only [ge_iff_le, not_le]; linarith)]
    · intro hv
      subst hv
      unfold get_quartile_position
      rw [if_neg hd, if_neg (by simp only [ge_iff_le, not_le]; linarith),
        if_neg (by simp only [ge_iff_le, not_le]; linarith), if_pos le_rfl]

unseal Rat.mul Rat.inv Rat.add Rat.sub Nat.gcd in
/-- C2 witness: the amended boundary behaviour at a concrete band and values. -/
theorem C2_witness :
    normalize_score fs_it_spend_band 12 = 0 ∧
    get_quartile_position fs_it_spend_band 12 = "bottom_quartile" ∧
    get_quartile_position fs_it_spend_band (57/5) = "below_median" := by
  have h := (C2_bottom_quartile_boundary fs_it_spend_band 12).1
    (by decide) (by decide) (by decide)
  have h' := (C2_bottom_quartile_boundary fs_it_spend_band (57/5)).1
    (by decide) (by decide) (by decide)
  exact ⟨h.1 (by decide), h.2.1 (by decide), h'.2.2 (by decide)⟩

unseal Rat.mul Rat.inv Rat.add Rat.sub Nat.gcd in
/-- C3: the claim as stated is false on the code. For a band with
`top_quartile = median = 2`, `bottom_quartile = 4`, direction `lower_is_better`,
the value 2.5 lies strictly between median and bottom quartile but
`normalize_score` returns 37.5, not 25.0. -/
theorem C3_counterexample :
    degenerate_band.direction = "lower_is_better" ∧
    degenerate_band.top_quartile = degenerate_band.median ∧
    degenerate_band.median < 5/2 ∧
    (5/2 : ℚ) < degenerate_band.bottom_quartile ∧
    normalize_score degenerate_band (5/2) ≠ 25 ∧
    normalize_score degenerate_band (5/2) = 75/2 := by
  decide

/-- C3 (amended): for every band with `top_quartile = median` and every value
strictly between median and bottom quartile on the unfavorable side,
`normalize_score` never divides by zero: the lower-segment denominator is
nonzero and the score is the linear lower-segment value
`50 * (bottom - value) / (bottom - median)` (resp. its mirror), which equals
25.0 exactly at the segment midpoint. -/
theorem C3_degenerate_band_score (bench : Bench) (value : ℚ)
    (hdeg : bench.top_quartile = bench.median) :
    (bench.direction = "lower_is_better" →
     bench.median < value → value < bench.bottom_quartile →
      bench.bottom_quartile - bench.median ≠ 0 ∧
      normalize_score bench value =
        50 * (bench.bottom_quartile - value) /
          (bench.bottom_quartile - bench.median)) ∧
    (bench.direction ≠ "lower_is_better" →
     bench.bottom_quartile < value → value < bench.median →
      bench.median - bench.bottom_quartile ≠ 0 ∧
      normalize_score bench value =
        50 * (value - bench.bottom_quartile) /
          (bench.median - bench.bottom_quartile)) := by
  constructor
  · intro hd hmv hvb
    exact ⟨by intro h; linarith,
      score_lower_lower_seg bench hd hdeg.le hmv hvb⟩
  · intro hd hbv hvm
    exact ⟨by intro h; linarith,
      score_higher_lower_seg bench hd hdeg.ge hbv hvm⟩

unseal Rat.mul Rat.inv Rat.add Rat.sub Nat.gcd in
/-- C3 witness: the amended degenerate-band rule at a concrete band and value. -/
theorem C3_witness :
    degenerate_band.bottom_quartile - degenerate_band.median ≠ 0 ∧
    normalize_score degenerate_band 3 =
      50 * (degenerate_band.bottom_quartile - 3) /
        (degenerate_band.bottom_quartile - degenerate_band.median) :=
  (C3_degenerate_band_score degenerate_band 3 (by decide)).1 (by decide) (by decide)
    (by decide)

unseal Rat.mul Rat.inv Rat.add Rat.sub Nat.gcd in
/-- C4: the claim as stated is false on the code. With `it_budget = 100` and
`cloud_spend` absent (treated as 0), `cloud_pct_budget` is present in the
derived metrics (with value 0.0) and in the full analysis output, not
omitted. -/
theorem C4_counterexample :
    c4_client "cloud_spend" = none ∧
    compute_derived_metrics c4_client "cloud_pct_budget" = some 0 ∧
    (run_full_analysis c4_client "financial_services").countP
      (fun r => r.metric_id = "cloud_pct_budget") = 1 := by
  decide

/-- C4 (amended): for every derived metric, if its guarded denominator field is
zero or absent (revenue for `it_spend_pct_revenue`; total_employees for
`it_spend_per_employee` and `it_staff_pct_employees`; total_opex for
`it_spend_pct_opex`; it_budget_prior_year for `it_budget_yoy_growth`; it_ftes
for `it_staffing_ratio`; it_budget for `cloud_pct_budget`,
`cybersecurity_pct_budget`, `it_labor_pct_budget`, `outsourcing_pct_budget` and
`app_pct_budget`; the application+infrastructure sum for `app_pct_budget`), or
its pass-through field is absent (`run_pct`, `grow_pct`, `transform_pct`,
`system_availability`, `it_attrition_rate`, `helpdesk_cost_per_ticket`), then
that metric id is absent from `compute_derived_metrics`'s output; and any
metric id absent from the derived metrics is absent from `run_full_analysis`'s
output for every industry. -/
theorem C4_omission_law (d : ClientData) (industry : String) :
    ((d "revenue" = none ∨ d "revenue" = some 0) →
      compute_derived_metrics d "it_spend_pct_revenue" = none) ∧
    ((d "total_employees" = none ∨ d "total_employees" = some 0) →
      compute_derived_metrics d "it_spend_per_employee" = none) ∧
    ((d "total_opex" = none ∨ d "total_opex" = some 0) →
      compute_derived_metrics d "it_spend_pct_opex" = none) ∧
    ((d "it_budget_prior_year" = none ∨ d "it_budget_prior_year" = some 0) →
      compute_derived_metrics d "it_budget_yoy_growth" = none) ∧
    ((d "total_employees" = none ∨ d "total_employees" = some 0) →
      compute_derived_metrics d "it_staff_pct_employees" = none) ∧
    ((d "it_ftes" = none ∨ d "it_ftes" = some 0) →
      compute_derived_metrics d "it_staffing_ratio" = none) ∧
    (d "run_pct" = none → compute_derived_metrics d "run_budget_pct" = none) ∧
    (d "grow_pct" = none → compute_derived_metrics d "grow_budget_pct" = none) ∧
    (d "transform_pct" = none →
      compute_derived_metrics d "transform_budget_pct" = none) ∧
    ((d "it_budget" = none ∨ d "it_budget" = some 0) →
      compute_derived_metrics d "cloud_pct_budget" = none) ∧
    ((d "it_budget" = none ∨ d "it_budget" = some 0) →
      compute_derived_metrics d "cybersecurity_pct_budget" = none) ∧
    ((d "it_budget" = none ∨ d "it_budget" = some 0) →
      compute_derived_metrics d "it_labor_pct_budget" = none) ∧
    ((d "it_budget" = none ∨ d "it_budget" = some 0) →
      compute_derived_metrics d "outsourcing_pct_budget" = none) ∧
    ((d "it_budget" = none ∨ d "it_budget" = some 0) →
      compute_derived_metrics d "app_pct_budget" = none) ∧
    ((d "application_spend" = none ∨ d "application_spend" = some 0) →
     (d "infrastructure_spend" = none ∨ d "infrastructure_spend" = some 0) →
      compute_derived_metrics d "app_pct_budget" = none) ∧
    (d "system_availability" = none →
      compute_derived_metrics d "system_availability" = none) ∧
    (d "it_attrition_rate" = none →
      compute_derived_metrics d "it_attrition_rate" = none) ∧
    (d "helpdesk_cost_per_ticket" = none →
      compute_derived_metrics d "helpdesk_cost_per_ticket" = none) ∧
    (∀ metric_id, compute_derived_metrics d metric_id = none →
      ∀ r ∈ run_full_analysis d industry, r.metric_id ≠ metric_id) := by
  refine ⟨?_, ?_, ?_, ?_, ?_, ?_, ?_, ?_, ?_, ?_, ?_, ?_, ?_, ?_, ?_, ?_, ?_,
    ?_, ?_⟩
  · rintro (h | h) <;> simp [compute_derived_metrics, h]
  · rintro (h | h) <;> simp [compute_derived_metrics, h]
  · rintro (h | h) <;> simp [compute_derived_metrics, h]
  · rintro (h | h) <;> simp [compute_derived_metrics, h]
  · rintro (h | h) <;> simp [compute_derived_metrics, h]
  · rintro (h | h) <;> simp [compute_derived_metrics, h]
  · intro h
    simp [compute_derived_metrics, h]
  · intro h
    simp [compute_derived_metrics, h]
  · intro h
    simp [compute_derived_metrics, h]
  · rintro (h | h) <;> simp [compute_derived_metrics, h]
  · rintro (h | h) <;> simp [compute_derived_metrics, h]
  · rintro (h | h) <;> simp [compute_derived_metrics, h]
  · rintro (h | h) <;> simp [compute_derived_metrics, h]
  · rintro (h | h) <;> simp [compute_derived_metrics, h]
  · rintro (h1 | h1) (h2 | h2) <;> simp [compute_derived_metrics, h1, h2]
  · intro h
    simp [compute_derived_metrics, h]
  · intro h
    simp [compute_derived_metrics, h]
  · intro h
    simp [compute_derived_metrics, h]
  · intro metric_id hnone r hr hEq
    obtain ⟨m, value, bench, hv, _, hmid, _, _, _⟩ :=
      run_full_analysis_mem d industry r hr
    have hm : m = metric_id := hmid.symm.trans hEq
    subst hm
    rw [hnone] at hv
    exact Option.noConfusion hv

/-- C4 witness: the amended omission law at concrete inputs (a guarded ratio,
a guarded-denominator metric over total_employees, and an absent
pass-through). -/
theorem C4_witness :
    compute_derived_metrics c4_client "it_staffing_ratio" = none ∧
    compute_derived_metrics c4_client "it_spend_per_employee" = none ∧
    compute_derived_metrics c4_client "grow_budget_pct" = none :=
  ⟨(C4_omission_law c4_client "financial_services").2.2.2.2.2.1 (Or.inl rfl),
   (C4_omission_law c4_client "financial_services").2.1 (Or.inl rfl),
   (C4_omission_law c4_client "financial_services").2.2.2.2.2.2.2.1 rfl⟩

unseal Rat.mul Rat.inv Rat.add Rat.sub Nat.gcd in
/-- C5: the spec's worked example. For inputs
`{revenue: 1_000_000_000, it_budget: 70_000_000}` and industry
`financial_services`, the derived `it_spend_pct_revenue` is 7.0, and against
the catalog band (5.7 / 7.9 / 11.4, `lower_is_better`) the quartile is
`above_median` and the score is `50 + 50*(7.9-7.0)/(7.9-5.7)` (= 775/11
≈ 70.45). -/
theorem C5_worked_example :
    compute_derived_metrics c5_client "it_spend_pct_revenue" = some 7 ∧
    get_benchmarks "financial_services" "it_spend_pct_revenue" =
      some fs_it_spend_band ∧
    fs_it_spend_band.top_quartile = 57/10 ∧
    fs_it_spend_band.median = 79/10 ∧
    fs_it_spend_band.bottom_quartile = 57/5 ∧
    fs_it_spend_band.direction = "lower_is_better" ∧
    get_quartile_position fs_it_spend_band 7 = "above_median" ∧
    normalize_score fs_it_spend_band 7 = 50 + 50 * (79/10 - 7) / (79/10 - 57/10) ∧
    normalize_score fs_it_spend_band 7 = 775/11 := by
  decide

/-- C6: for every consistently ordered band, `normalize_score` is monotonic in
the organization's favorable direction over the whole value domain
(non-increasing in the raw value for `lower_is_better`, non-decreasing for
`higher_is_better`), and returns exactly 100.0 at or beyond the top-quartile
threshold and exactly 0.0 at or beyond the bottom-quartile threshold. -/
theorem C6_monotone_extremes (bench : Bench) :
    (bench.direction = "lower_is_better" →
     bench.top_quartile < bench.median → bench.median < bench.bottom_quartile →
      (∀ v1 v2 : ℚ, v1 ≤ v2 → normalize_score bench v2 ≤ normalize_score bench v1) ∧
      (∀ v : ℚ, v ≤ bench.top_quartile → normalize_score bench v = 100) ∧
      (∀ v : ℚ, bench.bottom_quartile ≤ v → normalize_score bench v = 0)) ∧
    (bench.direction ≠ "lower_is_better" →
     bench.bottom_quartile < bench.median → bench.median < bench.top_quartile →
      (∀ v1 v2 : ℚ, v1 ≤ v2 → normalize_score bench v1 ≤ normalize_score bench v2) ∧
      (∀ v : ℚ, bench.top_quartile ≤ v → normalize_score bench v = 100) ∧
      (∀ v : ℚ, v ≤ bench.bottom_quartile → normalize_score bench v = 0)) := by
  constructor
  · intro hd h1 h2
    exact ⟨fun v1 v2 h12 => score_antitone_lower bench hd h1 h2 h12,
      fun v hv => score_lower_top bench hd hv,
      fun v hv => score_lower_bottom bench hd (by linarith) hv⟩
  · intro hd h1 h2
    exact ⟨fun v1 v2 h12 => score_monotone_higher bench hd h1 h2 h12,
      fun v hv => score_higher_top bench hd hv,
      fun v hv => score_higher_bottom bench hd (by linarith) hv⟩

unseal Rat.mul Rat.inv Rat.add Rat.sub Nat.gcd in
/-- C6 witness: monotonicity and the two extremes at a concrete band. -/
theorem C6_witness :
    normalize_score fs_it_spend_band 9 ≤ normalize_score fs_it_spend_band 8 ∧
    normalize_score fs_it_spend_band 5 = 100 ∧
    normalize_score fs_it_spend_band 12 = 0 := by
  have h := (C6_monotone_extremes fs_it_spend_band).1 (by decide) (by decide)
    (by decide)
  exact ⟨h.1 8 9 (by norm_num), h.2.1 5 (by decide), h.2.2 12 (by decide)⟩

/-- C7: for every industry string other than `financial_services` and
`healthcare`, `get_benchmarks` returns the empty mapping (no band for any
metric id) and `run_full_analysis` returns the empty list for every
raw-input mapping. -/
theorem C7_unknown_industry (industry : String)
    (h1 : industry ≠ "financial_services") (h2 : industry ≠ "healthcare") :
    (∀ metric_id, get_benchmarks industry metric_id = none) ∧
    (∀ client_data : ClientData, run_full_analysis client_data industry = []) := by
  have hb : ∀ metric_id, get_benchmarks industry metric_id = none := by
    intro m
    unfold get_benchmarks INDUSTRY_BENCHMARKS
    rw [if_neg h1, if_neg h2]
    rcases METRIC_DEFINITIONS m with _ | d <;> rfl
  refine ⟨hb, fun client_data => ?_⟩
  simp only [run_full_analysis, List.filterMap_eq_nil_iff]
  intro m hm
  rw [hb m]
  rcases hder : compute_derived_metrics client_data m with _ | v <;> rfl

/-- C7 witness: a concrete unknown industry yields an empty catalog and an
empty result list. -/
theorem C7_witness :
    get_benchmarks "retail" "it_spend_pct_revenue" = none ∧
    run_full_analysis (fun _ => none) "retail" = [] := by
  have h := C7_unknown_industry "retail" (by decide) (by decide)
  exact ⟨h.1 "it_spend_pct_revenue", h.2 (fun _ => none)⟩

/-- C8: `app_pct_budget` is present in the derived metrics iff both
`it_budget > 0` and `application_spend + infrastructure_spend > 0` (in
particular it is omitted when `it_budget` is 0 or absent even if the app+infra
sum is positive), and when present its value is
`application_spend / (application_spend + infrastructure_spend) * 100`. -/
theorem C8_app_pct_budget (d : ClientData) :
    (compute_derived_metrics d "app_pct_budget" ≠ none ↔
      (d "it_budget").getD 0 > 0 ∧
      (d "application_spend").getD 0 + (d "infrastructure_spend").getD 0 > 0) ∧
    ((d "it_budget").getD 0 > 0 →
     (d "application_spend").getD 0 + (d "infrastructure_spend").getD 0 > 0 →
      compute_derived_metrics d "app_pct_budget" =
        some ((d "application_spend").getD 0 /
          ((d "application_spend").getD 0 + (d "infrastructure_spend").getD 0)
          * 100)) := by
  have hE : compute_derived_metrics d "app_pct_budget" =
      if (d "it_budget").getD 0 > 0 then
        if (d "application_spend").getD 0 + (d "infrastructure_spend").getD 0
            > 0 then
          some ((d "application_spend").getD 0 /
            ((d "application_spend").getD 0 + (d "infrastructure_spend").getD 0)
            * 100)
        else none
      else none := by
    rfl
  rw [hE]
  refine ⟨⟨?_, ?_⟩, ?_⟩
  · intro hne
    split_ifs at hne with hb hs
    · exact ⟨hb, hs⟩
    · exact absurd rfl hne
    · exact absurd rfl hne
  · rintro ⟨hb, hs⟩
    rw [if_pos hb, if_pos hs]
    simp
  · intro hb hs
    rw [if_pos hb, if_pos hs]

unseal Rat.mul Rat.inv Rat.add Rat.sub Nat.gcd in
/-- C8 witness: the presence rule and the computed value at concrete inputs. -/
theorem C8_witness :
    compute_derived_metrics c8_client "app_pct_budget" =
      some ((c8_client "application_spend").getD 0 /
        ((c8_client "application_spend").getD 0 +
          (c8_client "infrastructure_spend").getD 0) * 100) :=
  (C8_app_pct_budget c8_client).2 (by decide) (by decide)

/-- C9: `get_summary_stats` on an empty list returns the all-zero summary
without raising, and on a non-empty list returns the length, the count of
results in each of the four quartile buckets, and the unweighted arithmetic
mean of all scores. -/
theorem C9_summary_stats (results : List MetricResult) :
    get_summary_stats [] =
      { total := 0, top_q := 0, above_med := 0, below_med := 0, bottom_q := 0,
        avg_score := 0 } ∧
    (results ≠ [] →
      (get_summary_stats results).total = results.length ∧
      (get_summary_stats results).top_q =
        results.countP (fun r => r.quartile = "top_quartile") ∧
      (get_summary_stats results).above_med =
        results.countP (fun r => r.quartile = "above_median") ∧
      (get_summary_stats results).below_med =
        results.countP (fun r => r.quartile = "below_median") ∧
      (get_summary_stats results).bottom_q =
        results.countP (fun r => r.quartile = "bottom_quartile") ∧
      (get_summary_stats results).avg_score =
        (results.map fun r => r.score).sum / (results.length : ℚ)) := by
  refine ⟨rfl, fun hne => ?_⟩
  have hlen : results.length ≠ 0 := by
    simpa [List.length_eq_zero] using hne
  unfold get_summary_stats
  rw [if_neg hlen]
  refine ⟨rfl, ?_, ?_, ?_, ?_, rfl⟩ <;>
    exact (List.countP_eq_length_filter _ _).symm

unseal Rat.mul Rat.inv Rat.add Rat.sub Nat.gcd in
/-- C9 witness: the non-empty branch at the worked example's result list. -/
theorem C9_witness :
    (get_summary_stats (run_full_analysis c5_client "financial_services")).avg_score =
      ((run_full_analysis c5_client "financial_services").map
        fun r => r.score).sum /
        ((run_full_analysis c5_client "financial_services").length : ℚ) :=
  ((C9_summary_stats (run_full_analysis c5_client "financial_services")).2
    (by decide)).2.2.2.2.2

/-- C10: every result record produced by `run_full_analysis` carries an insight
equal to its band's `insight_high` or `insight_low` text and never equal to the
band's `insight_aligned` text: `get_quartile_position` always returns one of
the four quartile labels and `get_insight` maps each of them to a directional
text, so the aligned branch is unreachable through the pipeline. -/
theorem C10_insight_directional (d : ClientData) (industry : String)
    (r : MetricResult) (hr : r ∈ run_full_analysis d industry)
    (bench : Bench) (hb : get_benchmarks industry r.metric_id = some bench) :
    (r.insight = bench.insight_high ∨ r.insight = bench.insight_low) ∧
    r.insight ≠ bench.insight_aligned := by
  obtain ⟨m, value, bench2, hv, hb2, hmid, _, _, hins⟩ :=
    run_full_analysis_mem d industry r hr
  rw [hmid, hb2] at hb
  injection hb with hb
  subst hb
  have hcases := quartile_position_cases bench2 value
  have hhl := insight_high_or_low bench2 (get_quartile_position bench2 value) hcases
  rw [← hins] at hhl
  have hdist := catalog_insights_distinct industry m bench2 hb2
  refine ⟨hhl, ?_⟩
  rcases hhl with h | h <;> rw [h]
  · exact fun hc => hdist.1 hc.symm
  · exact fun hc => hdist.2 hc.symm

unseal Rat.mul Rat.inv Rat.add Rat.sub Nat.gcd in
/-- C10 witness: the first record of the worked example analysis. -/
theorem C10_witness :
    (c10_result.insight = fs_it_spend_band.insight_high ∨
     c10_result.insight = fs_it_spend_band.insight_low) ∧
    c10_result.insight ≠ fs_it_spend_band.insight_aligned :=
  C10_insight_directional c5_client "financial_services" c10_result (by decide)
    fs_it_spend_band (by decide)

end ITBench
